import Mathlib

/-!
A verification development for the SWGOH Territory-War statistics engine
(`swgoh_data_context.py`).  The Python dictionaries navigated with
`.get(key, default)` are embedded as Lean structures whose fields are
`Option`-valued (a `none` stands for a missing key, a JSON `null`, or a
falsy `{}` value, which the source treats alike), and the final defaults
(`''`, `0`, `[]`) are applied by the accessor functions exactly where the
source applies them.  `pandas` data frames are embedded as Lean lists of
records; `DataFrame.sort_values` on a single column with `ascending=False`
is embedded as the reverse of a stable ascending insertion sort, because
pandas (`nargsort`) computes an ascending argsort and reverses the
indexer, and the numpy `quicksort` argsort is insertion sort (stable) on
the small arrays considered here; multi-column sorts go through
`np.lexsort`, which is stable, so they are embedded as a stable sort by
the lexicographic descending order.  `groupby` iterates groups in sorted
key order (`sort=True` is the pandas default).  Functions that can raise
an exception return an `Option`, with `none` for the raised case.
-/

namespace SWGOH

/-- Model of Python `int(s)` on a string: strip surrounding whitespace,
an optional single `+`/`-` sign, then a non-empty run of ASCII digits.
Returns `none` where Python raises `ValueError`.  (Python additionally
accepts underscore digit separators and non-ASCII digits; those exotic
inputs are not modelled and parse to `none` here.) -/
def pyIntDigits : List Char → Option Nat
  | [] => none
  | cs =>
    if cs.all Char.isDigit then
      some (cs.foldl (fun n c => 10 * n + (c.toNat - 48)) 0)
    else none

def pyInt (s : String) : Option Int :=
  let cs := ((s.data.dropWhile Char.isWhitespace).reverse.dropWhile Char.isWhitespace).reverse
  match cs with
  | [] => none
  | c :: rest =>
    if c = '-' then (pyIntDigits rest).map (fun n => -(n : Int))
    else if c = '+' then (pyIntDigits rest).map (fun n => (n : Int))
    else (pyIntDigits cs).map (fun n => (n : Int))

/-! ### Raw event data model (`RawEvent` paths used by the source) -/

structure Cell where
  cellIndex : Option Int
  unitDefId : Option String
deriving DecidableEq, Repr

structure SquadObj where
  cell : List Cell
deriving DecidableEq, Repr

structure WarSquad where
  playerId : Option String
  playerName : Option String
  power : Option Int
  squad : Option SquadObj
  squadStatus : Option Int
  successfulDefends : Option Int
deriving DecidableEq, Repr

structure LogParam where
  paramValue : List String
deriving DecidableEq, Repr

structure ActivityLogMessage where
  key : Option String
  param : List LogParam
deriving DecidableEq, Repr

structure ZoneData where
  activityLogMessage : Option ActivityLogMessage
  zoneId : Option String
  guildId : Option String
deriving DecidableEq, Repr

structure EventInfo where
  authorId : Option String
  authorName : Option String
deriving DecidableEq, Repr

structure Payload where
  zoneData : Option ZoneData
  warSquad : Option WarSquad
deriving DecidableEq, Repr

structure Event where
  payload : Option Payload
  info : Option EventInfo
deriving DecidableEq, Repr

/-- `self.tw_data`: a JSON document whose event list is under `data`
(preferred) or `events`. -/
structure TWData where
  data : Option (List Event)
  events : Option (List Event)
deriving DecidableEq, Repr

/-- `events = self.tw_data.get('data', self.tw_data.get('events', []))` -/
def TWData.eventList (td : TWData) : List Event :=
  td.data.getD (td.events.getD [])

/-- Guild-membership document: `events -> guild -> member[] -> playerName`. -/
structure GuildMember where
  playerName : Option String
deriving DecidableEq, Repr

structure GuildObj where
  member : List GuildMember
deriving DecidableEq, Repr

structure GuildEvents where
  guild : Option GuildObj
deriving DecidableEq, Repr

structure GuildData where
  events : Option GuildEvents
deriving DecidableEq, Repr

/-- The relevant state of a `SWGOHDataContext` object.  `tw_data = none`
models both "never loaded" and a falsy loaded value (the source only
tests `not self.tw_data`); likewise for `guild_data`. -/
structure Ctx where
  guild_id : String
  guild_name : String
  tw_data : Option TWData
  guild_data : Option GuildData
deriving DecidableEq, Repr

/-! ### Field extraction (lines 97-171 of `swgoh_data_context.py`) -/

def evZoneData (ev : Event) : Option ZoneData :=
  ev.payload.bind Payload.zoneData

def evActivityLog (ev : Event) : Option ActivityLogMessage :=
  (evZoneData ev).bind ZoneData.activityLogMessage

/-- `event_type = activity_log.get('key', '')` -/
def evKey (ev : Event) : String :=
  ((evActivityLog ev).bind ActivityLogMessage.key).getD ""

/-- `war_squad = payload.get('warSquad', {})`; `none` is the falsy case. -/
def evWarSquad (ev : Event) : Option WarSquad :=
  ev.payload.bind Payload.warSquad

def evAuthorId (ev : Event) : String :=
  (ev.info.bind EventInfo.authorId).getD ""

def evAuthorName (ev : Event) : String :=
  (ev.info.bind EventInfo.authorName).getD ""

def evGuildId (ev : Event) : String :=
  ((evZoneData ev).bind ZoneData.guildId).getD ""

def evZoneId (ev : Event) : String :=
  ((evZoneData ev).bind ZoneData.zoneId).getD ""

def SQUAD_WIN_KEY : String := "TERRITORY_CHANNEL_ACTIVITY_CONFLICT_SQUAD_WIN"
def EMPTY_KEY : String := "EMPTY"
def DEPLOY_KEY : String := "TERRITORY_CHANNEL_ACTIVITY_CONFLICT_DEFENSE_DEPLOY"
def FLEET_DEPLOY_KEY : String := "TERRITORY_CHANNEL_ACTIVITY_CONFLICT_DEFENSE_FLEET_DEPLOY"

def isWinEv (ev : Event) : Bool := evKey ev == SQUAD_WIN_KEY
def isHoldEv (ev : Event) : Bool := evKey ev == EMPTY_KEY

/-- An event survives the two `continue` filters of the attack loop:
`SQUAD_WIN` events always, `EMPTY` events only with a truthy `warSquad`. -/
def attackClassified (ev : Event) : Bool :=
  isWinEv ev || (isHoldEv ev && (evWarSquad ev).isSome)

/-- First banner param string, `activityLogMessage.param[0].paramValue[0]`. -/
def firstBannerParam (ev : Event) : Option String :=
  match ((evActivityLog ev).map ActivityLogMessage.param).getD [] with
  | [] => none
  | p :: _ => p.paramValue.head?

/-- Banner extraction, lines 123-131: `int(param_values[0])`, any parse
failure (or missing path / empty list) coerces to 0. -/
def bannersOf (ev : Event) : Int :=
  match ((evActivityLog ev).map ActivityLogMessage.param).getD [] with
  | [] => 0
  | p :: _ =>
    match p.paramValue with
    | [] => 0
    | v :: _ => (pyInt v).getD 0

/-- `cells = squad.get('cell', []) if squad else []` -/
def cellsOfWs (ws : Option WarSquad) : List Cell :=
  ((ws.bind WarSquad.squad).map SquadObj.cell).getD []

/-- The prefix of `s` before the first `':'`: Python `s.split(':')[0]`. -/
def beforeColon (s : String) : String :=
  String.mk (s.data.takeWhile (fun c => !(c == ':')))

/-- Defending-leader extraction in the ATTACK loop (lines 133-148): find
the `cellIndex == 0` cell, take its `unitDefId`; keep the prefix before
`':'` when present, otherwise the full id; `none` when no such cell. -/
def leaderOfWs (ws : Option WarSquad) : Option String :=
  match (cellsOfWs ws).find? (fun c => decide (c.cellIndex = some 0)) with
  | none => none
  | some c =>
    let u := c.unitDefId.getD ""
    if u.data.contains ':' then some (beforeColon u) else some u

/-- Defending-leader extraction in the DEPLOY loop of
`_get_defense_contributors` (lines 476-485).  NOTE: unlike the attack
loop, there is no `else` branch, so a `unitDefId` without a `':'`
leaves the leader `None`. -/
def deployLeaderOfWs (ws : Option WarSquad) : Option String :=
  match (cellsOfWs ws).find? (fun c => decide (c.cellIndex = some 0)) with
  | none => none
  | some c =>
    let u := c.unitDefId.getD ""
    if u.data.contains ':' then some (beforeColon u) else none

def evSquadStatus (ev : Event) : Option Int :=
  (evWarSquad ev).bind WarSquad.squadStatus

/-- Record derived from one surviving event (lines 182-194). -/
structure AttackData where
  attacker_id : String
  attacker_name : String
  defender_id : String
  defender_name : String
  defending_leader : Option String
  zone_id : String
  attacking_guild_id : String
  banners : Int
  squad_power : Int
  is_win : Bool
  result_type : String
deriving DecidableEq, Repr

/-- Dedup key: `(authorId, warSquad.playerId, defending_leader,
successfulDefends)` (lines 162-171). -/
def dedupKeyOf (ev : Event) : String × String × Option String × Int :=
  ( evAuthorId ev
  , ((evWarSquad ev).bind WarSquad.playerId).getD ""
  , leaderOfWs (evWarSquad ev)
  , ((evWarSquad ev).bind WarSquad.successfulDefends).getD 0 )

def attackDataOf (ev : Event) : AttackData :=
  { attacker_id := evAuthorId ev
    attacker_name := evAuthorName ev
    defender_id := ((evWarSquad ev).bind WarSquad.playerId).getD ""
    defender_name := ((evWarSquad ev).bind WarSquad.playerName).getD ""
    defending_leader := leaderOfWs (evWarSquad ev)
    zone_id := evZoneId ev
    attacking_guild_id := evGuildId ev
    banners := bannersOf ev
    squad_power := ((evWarSquad ev).bind WarSquad.power).getD 0
    is_win := isWinEv ev
    result_type := if isWinEv ev || (evSquadStatus ev == some 3) then "win" else "hold" }

/-- The event loop of `_parse_tw_attacks` (lines 97-200), threading the
`seen_attacks` set and splitting survivors into (ours, opponents). -/
def parseLoop (gid : String) :
    List Event → List (String × String × Option String × Int) →
    List AttackData × List AttackData
  | [], _ => ([], [])
  | ev :: rest, seen =>
    if attackClassified ev then
      if dedupKeyOf ev ∈ seen then parseLoop gid rest seen
      else
        let r := attackDataOf ev
        let rec' := parseLoop gid rest (dedupKeyOf ev :: seen)
        if r.attacking_guild_id = gid then (r :: rec'.1, rec'.2)
        else (rec'.1, r :: rec'.2)
    else parseLoop gid rest seen

/-- `_parse_tw_attacks`: `([], [])` when no TW data is loaded. -/
def parseTwAttacks (ctx : Ctx) : List AttackData × List AttackData :=
  match ctx.tw_data with
  | none => ([], [])
  | some td => parseLoop ctx.guild_id td.eventList []

/-- The subsequence of events whose records survive filtering and
deduplication, in order (a re-expression of the loop used for proofs). -/
def retainedLoop :
    List Event → List (String × String × Option String × Int) → List Event
  | [], _ => []
  | ev :: rest, seen =>
    if attackClassified ev then
      if dedupKeyOf ev ∈ seen then retainedLoop rest seen
      else ev :: retainedLoop rest (dedupKeyOf ev :: seen)
    else retainedLoop rest seen

/-! ### Aggregators -/

/-- `pandas` mean of an integer column, as an exact rational. -/
def ratMean (l : List Int) : ℚ := ((l.sum : ℚ)) / ((l.length : ℚ))

/-- `_calculate_guild_stats` (lines 269-294). -/
structure GuildStatsCalc where
  total_attacks : Nat
  total_banners : Int
  unique_players : Nat
  avg_banners : ℚ
  avg_power : ℚ
deriving DecidableEq, Repr

def calculateGuildStats (df : List AttackData) : GuildStatsCalc :=
  if df.isEmpty then
    { total_attacks := 0, total_banners := 0, unique_players := 0
      avg_banners := 0, avg_power := 0 }
  else
    { total_attacks := df.length
      total_banners := (df.map AttackData.banners).sum
      unique_players := (df.map AttackData.attacker_id).dedup.length
      avg_banners := ratMean (df.map AttackData.banners)
      avg_power := ratMean (df.map AttackData.squad_power) }

/-- Lexicographic comparison of character lists by code point (the
order pandas uses when sorting string group keys). -/
def charListLtB : List Char → List Char → Bool
  | [], [] => false
  | [], _ :: _ => true
  | _ :: _, [] => false
  | a :: as, b :: bs => if a < b then true else if b < a then false else charListLtB as bs

def strLtB (a b : String) : Bool := charListLtB a.data b.data

def strLeB (a b : String) : Bool := strLtB a b || a == b

/-- Lexicographic order on pairs of strings: the order in which
`groupby(['attacker_id', 'attacker_name'])` (pandas `sort=True`)
iterates its groups. -/
abbrev strPairLe (a b : String × String) : Prop :=
  (strLtB a.1 b.1 || (a.1 == b.1 && strLeB a.2 b.2)) = true

abbrev strLe (a b : String) : Prop := strLeB a b = true

/-- The `(attacker_id, attacker_name)` group keys in group-iteration
order (sorted, as pandas `groupby` does by default). -/
def groupPairs (df : List AttackData) : List (String × String) :=
  List.insertionSort strPairLe ((df.map fun r => (r.attacker_id, r.attacker_name)).dedup)

def playerRowsFor (df : List AttackData) (k : String × String) : List AttackData :=
  df.filter fun r => r.attacker_id = k.1 ∧ r.attacker_name = k.2

/-- One row of the `_get_top_performers` table (lines 296-323). -/
structure PlayerRow where
  player_id : String
  name : String
  total_banners : Int
  avg_banners : ℚ
  attacks : Nat
  avg_power : ℚ
deriving DecidableEq, Repr

def aggPlayerRow (df : List AttackData) (k : String × String) : PlayerRow :=
  let rows := playerRowsFor df k
  { player_id := k.1, name := k.2
    total_banners := (rows.map AttackData.banners).sum
    avg_banners := ratMean (rows.map AttackData.banners)
    attacks := rows.length
    avg_power := ratMean (rows.map AttackData.squad_power) }

abbrev playerBannersLe (a b : PlayerRow) : Prop := a.total_banners ≤ b.total_banners

/-- `player_stats.sort_values('total_banners', ascending=False)`:
pandas computes a stable ascending argsort and reverses the indexer,
so rows with equal `total_banners` come out in REVERSED group order. -/
def topPerformersSorted (df : List AttackData) : List PlayerRow :=
  (List.insertionSort playerBannersLe ((groupPairs df).map (aggPlayerRow df))).reverse

def topPerformers (df : List AttackData) (limit : Nat) : List PlayerRow :=
  if df.isEmpty then [] else (topPerformersSorted df).take limit

/-- Shared win/hold tallies over a group of attack rows. -/
def winRowsOf (rows : List AttackData) : List AttackData :=
  rows.filter fun r => r.result_type = "win"

def holdRowsOf (rows : List AttackData) : List AttackData :=
  rows.filter fun r => r.result_type = "hold"

/-- `(wins / total_attempts * 100) if total_attempts > 0 else 0` -/
def pctRate (k n : Nat) : ℚ := if 0 < n then (k : ℚ) / (n : ℚ) * 100 else 0

def avgBannersOnWins (rows : List AttackData) : ℚ :=
  let w := winRowsOf rows
  if 0 < w.length then ratMean (w.map AttackData.banners) else 0

/-- One row of `_get_defending_leader_stats` (lines 379-433). -/
structure LeaderRow where
  leader : String
  total_attempts : Nat
  wins : Nat
  holds : Nat
  win_rate : ℚ
  hold_rate : ℚ
  avg_banners_on_wins : ℚ
deriving DecidableEq, Repr

abbrev leaderHoldLe (a b : LeaderRow) : Prop := a.hold_rate ≤ b.hold_rate

def mkLeaderRow (dfL : List AttackData) (l : String) : LeaderRow :=
  let g := dfL.filter fun r => r.defending_leader = some l
  { leader := l
    total_attempts := g.length
    wins := (winRowsOf g).length
    holds := (holdRowsOf g).length
    win_rate := pctRate (winRowsOf g).length g.length
    hold_rate := pctRate (holdRowsOf g).length g.length
    avg_banners_on_wins := avgBannersOnWins g }

def leaderStats (df : List AttackData) (limit : Nat) : List LeaderRow :=
  if df.isEmpty then []
  else
    let dfL := df.filter fun r => r.defending_leader.isSome
    if dfL.isEmpty then []
    else
      let leaders := List.insertionSort strLe (dfL.filterMap AttackData.defending_leader).dedup
      let rows := leaders.map (mkLeaderRow dfL)
      ((List.insertionSort leaderHoldLe rows).reverse).take limit

/-- One row of `_get_detailed_defending_squads` (lines 325-377). -/
structure SquadRow where
  defender_name : String
  leader : String
  total_attempts : Nat
  wins : Nat
  holds : Nat
  win_rate : ℚ
  hold_rate : ℚ
  avg_banners_on_wins : ℚ
deriving DecidableEq, Repr

/-- `sort_values(['hold_rate', 'total_attempts'], ascending=[False, False])`:
a multi-column pandas sort goes through stable `np.lexsort`, so it is a
stable sort by the descending lexicographic order. -/
abbrev squadSortLe (a b : SquadRow) : Prop :=
  b.hold_rate < a.hold_rate ∨ (a.hold_rate = b.hold_rate ∧ b.total_attempts ≤ a.total_attempts)

def mkSquadRow (valid : List AttackData) (k : String × String) : SquadRow :=
  let g := valid.filter fun r => r.defender_name = k.1 ∧ r.defending_leader = some k.2
  { defender_name := k.1, leader := k.2
    total_attempts := g.length
    wins := (winRowsOf g).length
    holds := (holdRowsOf g).length
    win_rate := pctRate (winRowsOf g).length g.length
    hold_rate := pctRate (holdRowsOf g).length g.length
    avg_banners_on_wins := avgBannersOnWins g }

def detailedSquads (df : List AttackData) : List SquadRow :=
  if df.isEmpty then []
  else
    let valid := df.filter fun r => r.defending_leader.isSome
    if valid.isEmpty then []
    else
      let keys := List.insertionSort strPairLe
        ((valid.filterMap fun r => r.defending_leader.map fun l => (r.defender_name, l)).dedup)
      List.insertionSort squadSortLe (keys.map (mkSquadRow valid))

/-! ### `_get_defense_contributors` (lines 435-599) -/

structure DeployRow where
  player_id : String
  player_name : String
  leader : Option String
  power : ℚ
deriving DecidableEq, Repr

def isDeployEv (ev : Event) : Bool :=
  evKey ev == DEPLOY_KEY || evKey ev == FLEET_DEPLOY_KEY

def deployRowOf (ev : Event) : DeployRow :=
  { player_id := evAuthorId ev
    player_name := evAuthorName ev
    leader := deployLeaderOfWs (evWarSquad ev)
    power := ((((evWarSquad ev).bind WarSquad.power).getD 0 : Int) : ℚ) }

/-- Explicit deployment rows: deploy events of the caller's own guild. -/
def explicitDeployments (gid : String) (events : List Event) : List DeployRow :=
  (events.filter fun ev => isDeployEv ev && (evGuildId ev == gid)).map deployRowOf

/-- `drop_duplicates`: distinct values keeping the first occurrence. -/
def distinctFirst {α : Type} [DecidableEq α] (l : List α) : List α :=
  l.foldl (fun acc x => if x ∈ acc then acc else acc ++ [x]) []

def defAvgPower (opp : List AttackData) (d : String) (l : Option String) : ℚ :=
  let atk := opp.filter fun r => r.defender_name = d ∧ r.defending_leader = l
  if 0 < atk.length then ratMean (atk.map AttackData.squad_power) else 0

/-- One step of the "add inferred deployments" loop (lines 511-535):
append an inferred row for an attacked `(defender, leader)` squad that
has no matching row yet, provided the leader is not null. -/
def addInferred (opp : List AttackData) (acc : List DeployRow)
    (p : String × Option String) : List DeployRow :=
  let existing := acc.filter fun r => r.player_name = p.1 ∧ r.leader = p.2
  if existing.isEmpty && p.2.isSome then
    acc ++ [{ player_id := "", player_name := p.1, leader := p.2
              power := defAvgPower opp p.1 p.2 }]
  else acc

/-- The reconciled deployment table (`deployments_df`). -/
def deploymentsDf (gid : String) (events : List Event) (opp : List AttackData) :
    List DeployRow :=
  let deps := explicitDeployments gid events
  if !deps.isEmpty then
    (distinctFirst (opp.map fun r => (r.defender_name, r.defending_leader))).foldl
      (addInferred opp) deps
  else if !opp.isEmpty then
    let pairs := List.insertionSort strPairLe
      ((opp.filterMap fun r => r.defending_leader.map fun l => (r.defender_name, l)).dedup)
    pairs.map fun k =>
      { player_id := "", player_name := k.1, leader := some k.2
        power := defAvgPower opp k.1 (some k.2) }
  else []

structure DefRow where
  player_name : String
  squads_deployed : Nat
  avg_squad_power : ℚ
  total_attempts : Nat
  wins : Nat
  holds : Nat
  win_rate : ℚ
  hold_rate : ℚ
  banners_given_up : Int
  avg_banners_given_up : ℚ
deriving DecidableEq, Repr

def mkDefRow (opp : List AttackData) (ddf : List DeployRow) (name : String) : DefRow :=
  let grp := ddf.filter fun r => r.player_name = name
  let pAtk := opp.filter fun r => r.defender_name = name
  if 0 < pAtk.length then
    { player_name := name
      squads_deployed := grp.length
      avg_squad_power := ((grp.map DeployRow.power).sum) / ((grp.length : ℚ))
      total_attempts := pAtk.length
      wins := (winRowsOf pAtk).length
      holds := (holdRowsOf pAtk).length
      win_rate := pctRate (winRowsOf pAtk).length pAtk.length
      hold_rate := pctRate (holdRowsOf pAtk).length pAtk.length
      banners_given_up := ((winRowsOf pAtk).map AttackData.banners).sum
      avg_banners_given_up := avgBannersOnWins pAtk }
  else
    { player_name := name
      squads_deployed := grp.length
      avg_squad_power := ((grp.map DeployRow.power).sum) / ((grp.length : ℚ))
      total_attempts := 0, wins := 0, holds := 0
      win_rate := 0, hold_rate := 0
      banners_given_up := 0, avg_banners_given_up := 0 }

/-- `sort_values(['holds', 'squads_deployed'], ascending=[False, False])`
(multi-column: stable lexsort by the descending lexicographic order). -/
abbrev defSortLe (a b : DefRow) : Prop :=
  b.holds < a.holds ∨ (a.holds = b.holds ∧ b.squads_deployed ≤ a.squads_deployed)

/-- `_get_defense_contributors`.  Returns `none` for the two input
shapes on which the source raises a `KeyError`:
* the per-player loop runs (the deployments groupby has at least one
  group) while `opponent_df` is the column-less empty frame — then
  `opponent_df[opponent_df['defender_name'] == player_name]` (line 559)
  raises on the first iteration; this happens exactly when explicit
  deployments exist but there are zero opponent attack records;
* `player_stats_list` is empty (no explicit deployments, non-empty
  opponent attacks, but every attacked squad has a null leader) — then
  `pd.DataFrame([]).sort_values([...])` (line 597) raises. -/
def defenseContributors (ctx : Ctx) : Option (List DefRow) :=
  match ctx.tw_data with
  | none => some []
  | some td =>
    let events := td.eventList
    let opp := (parseTwAttacks ctx).2
    let deps := explicitDeployments ctx.guild_id events
    if deps.isEmpty && opp.isEmpty then some []
    else
      let ddf := deploymentsDf ctx.guild_id events opp
      let names := List.insertionSort strLe ((ddf.map DeployRow.player_name).dedup)
      let stats := names.map (mkDefRow opp ddf)
      if !stats.isEmpty && opp.isEmpty then none
      else if stats.isEmpty then none
      else some (List.insertionSort defSortLe stats)

/-! ### `get_tw_summary` (lines 207-267) -/

structure EmptyStats where
  guild_name : String
  total_attacks : Nat
  total_banners : Int
  unique_players : Nat
  avg_banners : ℚ
  avg_power : ℚ
deriving DecidableEq, Repr

structure FullSummary where
  guild_name : String
  ourStats : GuildStatsCalc
  opponent_stats : GuildStatsCalc
  top_performers : List PlayerRow
  defending_leaders_we_faced : List LeaderRow
  our_defending_leaders : List LeaderRow
  detailed_enemy_squads : List SquadRow
  detailed_our_squads : List SquadRow
  defense_contributors : List DefRow
  our_df : List AttackData
  opponent_df : List AttackData
deriving DecidableEq, Repr

/-- The three distinct shapes `get_tw_summary` can return: the empty
mapping `{}` (no TW data loaded), the zeroed mapping (no attacks for our
guild), and the full summary. -/
inductive TWSummary where
  | noData : TWSummary
  | emptyOurs : EmptyStats → TWSummary
  | full : FullSummary → TWSummary
deriving DecidableEq, Repr

def getTwSummary (ctx : Ctx) : Option TWSummary :=
  match ctx.tw_data with
  | none => some .noData
  | some _ =>
    let pr := parseTwAttacks ctx
    if pr.1.isEmpty then
      some (.emptyOurs
        { guild_name := ctx.guild_name, total_attacks := 0, total_banners := 0
          unique_players := 0, avg_banners := 0, avg_power := 0 })
    else
      match defenseContributors ctx with
      | none => none
      | some dc =>
        some (.full
          { guild_name := ctx.guild_name
            ourStats := calculateGuildStats pr.1
            opponent_stats := calculateGuildStats pr.2
            top_performers := topPerformers pr.1 10
            defending_leaders_we_faced := leaderStats pr.1 10
            our_defending_leaders := leaderStats pr.2 10
            detailed_enemy_squads := detailedSquads pr.1
            detailed_our_squads := detailedSquads pr.2
            defense_contributors := dc
            our_df := pr.1
            opponent_df := pr.2 })

/-! ### `get_participation_report` (lines 601-770) -/

structure OffRow where
  player_id : String
  player_name : String
  total_banners : Int
  wins : Nat
  attacks : Nat
deriving DecidableEq, Repr

/-- Offensive stats: `groupby(['attacker_id', 'attacker_name'])` with
banner sum, `is_win` sum (count of `True`) and row count. -/
def offensiveStats (ours : List AttackData) : List OffRow :=
  (groupPairs ours).map fun k =>
    let rows := playerRowsFor ours k
    { player_id := k.1, player_name := k.2
      total_banners := (rows.map AttackData.banners).sum
      wins := (rows.filter AttackData.is_win).length
      attacks := rows.length }

/-- `deployment_banners`: an insertion-ordered dict
`player_name -> (squad_deploys, fleet_deploys)` (lines 642-664). -/
def depBump (acc : List (String × Nat × Nat)) (name : String) (isFleet : Bool) :
    List (String × Nat × Nat) :=
  if acc.any fun e => e.1 = name then
    acc.map fun e =>
      if e.1 = name then
        (if isFleet then (e.1, e.2.1, e.2.2 + 1) else (e.1, e.2.1 + 1, e.2.2))
      else e
  else acc ++ [if isFleet then (name, 0, 1) else (name, 1, 0)]

def depStep (gid : String) (acc : List (String × Nat × Nat)) (ev : Event) :
    List (String × Nat × Nat) :=
  if evGuildId ev == gid then
    if evKey ev == DEPLOY_KEY then depBump acc (evAuthorName ev) false
    else if evKey ev == FLEET_DEPLOY_KEY then depBump acc (evAuthorName ev) true
    else acc
  else acc

def deploymentBanners (gid : String) (events : List Event) :
    List (String × Nat × Nat) :=
  events.foldl (depStep gid) []

structure PRow where
  player_name : String
  attacks : Nat
  offensive_banners : Int
  defensive_banners : Int
  total_banners : Int
  wins : Nat
  squads_deployed : Nat
  defensive_holds : Nat
  participated_offense : Bool
  participated_defense : Bool
  underperforming : Bool
deriving DecidableEq, Repr

def depLookup (depB : List (String × Nat × Nat)) (p : String) : Nat × Nat :=
  match depB.find? fun e => decide (e.1 = p) with
  | some e => e.2
  | none => (0, 0)

def buildPRow (offRows : List OffRow) (defRows : List DefRow)
    (depB : List (String × Nat × Nat)) (mb ma : Int) (p : String) : PRow :=
  let off := (offRows.filter fun r => r.player_name = p).head?
  let attacks := (off.map OffRow.attacks).getD 0
  let offensive_banners := (off.map OffRow.total_banners).getD 0
  let wins := (off.map OffRow.wins).getD 0
  let defr := (defRows.filter fun r => r.player_name = p).head?
  let squads_deployed := (defr.map DefRow.squads_deployed).getD 0
  let defensive_holds := (defr.map DefRow.holds).getD 0
  let dep := depLookup depB p
  let defensive_banners : Int := 30 * (dep.1 : Int) + 34 * (dep.2 : Int)
  let total_banners := offensive_banners + defensive_banners
  let participated_offense := decide (ma ≤ (attacks : Int))
  let participated_defense := decide (0 < squads_deployed)
  { player_name := p
    attacks := attacks
    offensive_banners := offensive_banners
    defensive_banners := defensive_banners
    total_banners := total_banners
    wins := wins
    squads_deployed := squads_deployed
    defensive_holds := defensive_holds
    participated_offense := participated_offense
    participated_defense := participated_defense
    underperforming := participated_offense && decide (total_banners < mb) }

structure EmptyReport where
  total_players : Nat
  players_who_attacked : Nat
  players_who_defended : Nat
  underperformers : List PRow
  non_participants : List PRow
deriving DecidableEq, Repr

structure FullReport where
  total_players : Nat
  players_who_attacked : Nat
  players_who_defended : Nat
  min_banners_threshold : Int
  underperformers : List PRow
  non_participants : List PRow
  all_participants : List PRow
deriving DecidableEq, Repr

/-- The three shapes `get_participation_report` can return. -/
inductive PartReport where
  | noData : PartReport
  | emptyOurs : EmptyReport → PartReport
  | report : FullReport → PartReport
deriving DecidableEq, Repr

/-- `get_guild_roster` (lines 902-926). -/
def getGuildRoster (ctx : Ctx) : List String :=
  match ctx.guild_data with
  | none => []
  | some gd =>
    (((gd.events.bind GuildEvents.guild).map GuildObj.member).getD []).filterMap
      fun m =>
        match m.playerName with
        | some n => if n = "" then none else some n
        | none => none

/-- Roster names added to the candidate set (lines 682-692): the guild
roster when guild data is loaded and `use_guild_roster` holds, otherwise
the manually supplied `expected_roster` (an empty list models Python's
falsy `None`/`[]`, adding nothing). -/
def rosterAdditions (ctx : Ctx) (expected_roster : List String)
    (use_guild_roster : Bool) : List String :=
  if use_guild_roster && ctx.guild_data.isSome then getGuildRoster ctx
  else expected_roster

abbrev prowBannersLe (a b : PRow) : Prop := a.total_banners ≤ b.total_banners

/-- The candidate player set `all_players` (a Python `set`, whose
iteration order is unspecified; it is embedded here as a duplicate-free
list; every claim about it is order-insensitive). -/
def allPlayersOf (offRows : List OffRow) (defRows : List DefRow)
    (depB : List (String × Nat × Nat)) (roster : List String) : List String :=
  ((offRows.map OffRow.player_name) ++ (defRows.map DefRow.player_name)
    ++ (depB.map fun e => e.1) ++ roster).dedup

def getParticipationReport (ctx : Ctx) (mb ma : Int)
    (expected_roster : List String) (use_guild_roster : Bool) :
    Option PartReport :=
  match ctx.tw_data with
  | none => some .noData
  | some td =>
    let ours := (parseTwAttacks ctx).1
    if ours.isEmpty then
      some (.emptyOurs
        { total_players := 0, players_who_attacked := 0
          players_who_defended := 0, underperformers := [], non_participants := [] })
    else
      match defenseContributors ctx with
      | none => none
      | some defRows =>
        let offRows := offensiveStats ours
        let depB := deploymentBanners ctx.guild_id td.eventList
        let players := allPlayersOf offRows defRows depB
          (rosterAdditions ctx expected_roster use_guild_roster)
        let rows := players.map (buildPRow offRows defRows depB mb ma)
        let sorted := (List.insertionSort prowBannersLe rows).reverse
        some (.report
          { total_players := players.length
            players_who_attacked := (sorted.filter fun r => 0 < r.attacks).length
            players_who_defended := (sorted.filter fun r => 0 < r.squads_deployed).length
            min_banners_threshold := mb
            underperformers := sorted.filter fun r => r.underperforming
            non_participants :=
              sorted.filter fun r => !r.participated_offense && !r.participated_defense
            all_participants := sorted })

/-! ### Concrete inputs used by witnesses and counterexamples -/

/-- A `SQUAD_WIN` attack event by guild `"G"` (player Alice attacking Bob). -/
def c1ev : Event :=
  { payload := some
      { zoneData := some
          { activityLogMessage := some
              { key := some SQUAD_WIN_KEY, param := [{ paramValue := ["20"] }] }
            zoneId := some "Z1", guildId := some "G" }
        warSquad := some
          { playerId := some "B", playerName := some "Bob", power := some 90000
            squad := none, squadStatus := some 3, successfulDefends := some 0 } }
    info := some { authorId := some "A", authorName := some "Alice" } }

def c2ev : Event :=
  { payload := some
      { zoneData := some
          { activityLogMessage := some
              { key := some SQUAD_WIN_KEY, param := [{ paramValue := ["35"] }] }
            zoneId := some "Z2", guildId := some "H" }
        warSquad := some
          { playerId := some "B2", playerName := some "Bea", power := some 80000
            squad := none, squadStatus := some 3, successfulDefends := some 1 } }
    info := some { authorId := some "A2", authorName := some "Ann" } }

/-- The C3 scenario event: one `SQUAD_WIN` with `info.authorId="A"`,
`info.authorName="Alice"`, `warSquad.playerId="B"`,
`warSquad.playerName="Bob"`, `warSquad.power=50000`, banner param
`["42"]`, and `zoneData.guildId` equal to the configured guild. -/
def c3ev : Event :=
  { payload := some
      { zoneData := some
          { activityLogMessage := some
              { key := some SQUAD_WIN_KEY, param := [{ paramValue := ["42"] }] }
            zoneId := some "Z1", guildId := some "OWNGUILD" }
        warSquad := some
          { playerId := some "B", playerName := some "Bob", power := some 50000
            squad := none, squadStatus := none, successfulDefends := none } }
    info := some { authorId := some "A", authorName := some "Alice" } }

def c3ctx : Ctx :=
  { guild_id := "OWNGUILD", guild_name := "GN"
    tw_data := some { data := some [c3ev], events := none }, guild_data := none }

def c3rec : AttackData :=
  { attacker_id := "A", attacker_name := "Alice", defender_id := "B"
    defender_name := "Bob", defending_leader := none, zone_id := "Z1"
    attacking_guild_id := "OWNGUILD", banners := 42, squad_power := 50000
    is_win := true, result_type := "win" }

/-- A win event whose banner param is the negative numeral `"-5"`. -/
def c4ev : Event :=
  { payload := some
      { zoneData := some
          { activityLogMessage := some
              { key := some SQUAD_WIN_KEY, param := [{ paramValue := ["-5"] }] }
            zoneId := some "Z1", guildId := some "G" }
        warSquad := some
          { playerId := some "B", playerName := some "Bob", power := some 100
            squad := none, squadStatus := some 3, successfulDefends := some 0 } }
    info := some { authorId := some "A", authorName := some "Alice" } }

def c4ctx : Ctx :=
  { guild_id := "G", guild_name := "GN"
    tw_data := some { data := some [c4ev], events := none }, guild_data := none }

/-- A lone `EMPTY` event with a `warSquad` whose `squadStatus` is 2 and
whose dedup key has not been seen. -/
def c5ev : Event :=
  { payload := some
      { zoneData := some
          { activityLogMessage := some { key := some EMPTY_KEY, param := [] }
            zoneId := some "Z1", guildId := some "G" }
        warSquad := some
          { playerId := some "B", playerName := some "Bob", power := some 100
            squad := none, squadStatus := some 2, successfulDefends := some 1 } }
    info := some { authorId := some "A", authorName := some "Alice" } }

def c5ctx : Ctx :=
  { guild_id := "G", guild_name := "GN"
    tw_data := some { data := some [c5ev], events := none }, guild_data := none }

/-- A defending squad whose leader cell has a `unitDefId` without the
`':'` separator. -/
def c6ws : WarSquad :=
  { playerId := some "B", playerName := some "Bob", power := some 100
    squad := some { cell := [{ cellIndex := some 0, unitDefId := some "LEADER" }] }
    squadStatus := none, successfulDefends := none }

def c6cell : Cell := { cellIndex := some 0, unitDefId := some "LEADER" }

def c7r1 : AttackData :=
  { attacker_id := "a", attacker_name := "A", defender_id := "d"
    defender_name := "D", defending_leader := none, zone_id := "z"
    attacking_guild_id := "G", banners := 10, squad_power := 1
    is_win := true, result_type := "win" }

def c7r2 : AttackData :=
  { attacker_id := "b", attacker_name := "B", defender_id := "d"
    defender_name := "D", defending_leader := none, zone_id := "z"
    attacking_guild_id := "G", banners := 10, squad_power := 1
    is_win := true, result_type := "win" }

/-- A loaded TW document with an empty event list.  The attack partition
for our guild is empty, so `get_participation_report` takes its zeroed
early return no matter what roster is supplied. -/
def c8ctx : Ctx :=
  { guild_id := "G", guild_name := "GN"
    tw_data := some { data := some [], events := none }, guild_data := none }

/-- One win event by our guild `"G"`, used so that the `ours` partition
is non-empty and the full participation report is produced. -/
def c8wev : Event :=
  { payload := some
      { zoneData := some
          { activityLogMessage := some
              { key := some SQUAD_WIN_KEY, param := [{ paramValue := ["42"] }] }
            zoneId := some "Z1", guildId := some "G" }
        warSquad := some
          { playerId := some "B", playerName := some "Bob", power := some 50000
            squad := none, squadStatus := some 3, successfulDefends := some 0 } }
    info := some { authorId := some "A", authorName := some "Alice" } }

def c8wtd : TWData := { data := some [c8wev], events := none }

def c8wctx : Ctx :=
  { guild_id := "G", guild_name := "GN", tw_data := some c8wtd, guild_data := none }

def c9ctx : Ctx :=
  { guild_id := "G", guild_name := "GN"
    tw_data := some { data := some [], events := none }, guild_data := none }

def c8rowAlice : PRow :=
  { player_name := "Alice", attacks := 1, offensive_banners := 42
    defensive_banners := 0, total_banners := 42, wins := 1
    squads_deployed := 0, defensive_holds := 0, participated_offense := true
    participated_defense := false, underperforming := true }

def c8rowZed : PRow :=
  { player_name := "Zed", attacks := 0, offensive_banners := 0
    defensive_banners := 0, total_banners := 0, wins := 0
    squads_deployed := 0, defensive_holds := 0, participated_offense := false
    participated_defense := false, underperforming := false }

/-- The full participation report produced for `c8wctx` with roster
`["Zed"]`: the roster-only player lands in `non_participants` with
all-zero stats. -/
def c8rep : FullReport :=
  { total_players := 2, players_who_attacked := 1, players_who_defended := 0
    min_banners_threshold := 50, underperformers := [c8rowAlice]
    non_participants := [c8rowZed]
    all_participants := [c8rowAlice, c8rowZed] }

instance : IsTotal PlayerRow playerBannersLe :=
  ⟨fun a b => le_total a.total_banners b.total_banners⟩

instance : IsTrans PlayerRow playerBannersLe :=
  ⟨fun _ _ _ h h' => le_trans h h'⟩

/-! ### Generic lemmas about the stable sort -/

theorem filter_orderedInsert_rel {α : Type} (r : α → α → Prop) [DecidableRel r]
    (p : α → Bool) (hp : ∀ a b, p a = true → p b = true → r a b) (x : α) :
    ∀ l : List α, (List.orderedInsert r x l).filter p = (x :: l).filter p := by
  intro l
  induction l with
  | nil => rfl
  | cons y ys ih =>
    by_cases hr : r x y
    · simp [List.orderedInsert, hr]
    · rw [List.orderedInsert, if_neg hr]
      by_cases hy : p y = true
      · by_cases hx : p x = true
        · exact absurd (hp x y hx hy) hr
        · simp [List.filter_cons, hy, hx, ih]
      · simp [List.filter_cons, hy, ih]

/-- A stable sort leaves the subsequence of rows agreeing on the sort
key untouched: filtering by any predicate that forces the relation to
hold commutes with `insertionSort`. -/
theorem filter_insertionSort_rel {α : Type} (r : α → α → Prop) [DecidableRel r]
    (p : α → Bool) (hp : ∀ a b, p a = true → p b = true → r a b) :
    ∀ l : List α, (List.insertionSort r l).filter p = l.filter p := by
  intro l
  induction l with
  | nil => rfl
  | cons x xs ih =>
    simp [List.insertionSort, filter_orderedInsert_rel r p hp, List.filter_cons, ih]

/-- Membership in `distinctFirst` (pandas `drop_duplicates`). -/
theorem mem_distinctFirst_aux {α : Type} [DecidableEq α] (l : List α) :
    ∀ (acc : List α) (x : α),
      x ∈ l.foldl (fun acc x => if x ∈ acc then acc else acc ++ [x]) acc ↔
        x ∈ acc ∨ x ∈ l := by
  induction l with
  | nil => intro acc x; simp [List.foldl]
  | cons y ys ih =>
    intro acc x
    by_cases hy : y ∈ acc
    · simp only [List.foldl, if_pos hy, ih]
      constructor
      · rintro (h | h)
        · exact Or.inl h
        · exact Or.inr (List.mem_cons_of_mem _ h)
      · rintro (h | h)
        · exact Or.inl h
        · rcases List.mem_cons.1 h with rfl | h
          · exact Or.inl hy
          · exact Or.inr h
    · simp only [List.foldl, if_neg hy, ih, List.mem_append, List.mem_singleton,
        List.mem_cons]
      tauto

theorem mem_distinctFirst {α : Type} [DecidableEq α] (l : List α) (x : α) :
    x ∈ distinctFirst l ↔ x ∈ l := by
  unfold distinctFirst
  rw [mem_distinctFirst_aux]
  simp

/-! ### Structure of the parse loop -/

theorem parseLoop_eq (gid : String) (evts : List Event) :
    ∀ seen,
      parseLoop gid evts seen =
        ( ((retainedLoop evts seen).map attackDataOf).filter
            (fun r => decide (r.attacking_guild_id = gid))
        , ((retainedLoop evts seen).map attackDataOf).filter
            (fun r => !decide (r.attacking_guild_id = gid)) ) := by
  induction evts with
  | nil => intro seen; rfl
  | cons ev rest ih =>
    intro seen
    by_cases hc : attackClassified ev = true
    · by_cases hk : dedupKeyOf ev ∈ seen
      · simp [parseLoop, retainedLoop, hc, hk, ih]
      · by_cases hg : (attackDataOf ev).attacking_guild_id = gid
        · simp [parseLoop, retainedLoop, hc, hk, hg, ih, List.filter_cons]
        · simp [parseLoop, retainedLoop, hc, hk, hg, ih, List.filter_cons]
    · simp [parseLoop, retainedLoop, hc, ih]

theorem retainedLoop_subset (evts : List Event) :
    ∀ seen ev, ev ∈ retainedLoop evts seen →
      ev ∈ evts ∧ attackClassified ev = true := by
  induction evts with
  | nil => intro seen ev h; simp [retainedLoop] at h
  | cons e rest ih =>
    intro seen ev h
    by_cases hc : attackClassified e = true
    · by_cases hk : dedupKeyOf e ∈ seen
      · rw [retainedLoop, if_pos hc, if_pos hk] at h
        rcases ih seen ev h with ⟨h1, h2⟩
        exact ⟨List.mem_cons_of_mem _ h1, h2⟩
      · rw [retainedLoop, if_pos hc, if_neg hk] at h
        rcases List.mem_cons.1 h with rfl | h
        · exact ⟨List.mem_cons_self _ _, hc⟩
        · rcases ih _ ev h with ⟨h1, h2⟩
          exact ⟨List.mem_cons_of_mem _ h1, h2⟩
    · rw [retainedLoop, if_neg hc] at h
      rcases ih seen ev h with ⟨h1, h2⟩
      exact ⟨List.mem_cons_of_mem _ h1, h2⟩

theorem retainedLoop_keys (evts : List Event) :
    ∀ seen, ((retainedLoop evts seen).map dedupKeyOf).Nodup ∧
      ∀ k ∈ (retainedLoop evts seen).map dedupKeyOf, k ∉ seen := by
  induction evts with
  | nil => intro seen; simp [retainedLoop]
  | cons e rest ih =>
    intro seen
    by_cases hc : attackClassified e = true
    · by_cases hk : dedupKeyOf e ∈ seen
      · rw [retainedLoop, if_pos hc, if_pos hk]; exact ih seen
      · rw [retainedLoop, if_pos hc, if_neg hk]
        rcases ih (dedupKeyOf e :: seen) with ⟨hnd, hnin⟩
        refine ⟨?_, ?_⟩
        · rw [List.map_cons, List.nodup_cons]
          refine ⟨fun hmem => ?_, hnd⟩
          exact (hnin _ hmem) (List.mem_cons_self _ _)
        · intro k hkmem
          rcases List.mem_cons.1 hkmem with rfl | hkmem
          · exact hk
          · intro hks
            exact (hnin _ hkmem) (List.mem_cons_of_mem _ hks)
    · rw [retainedLoop, if_neg hc]; exact ih seen

theorem card_insert_sdiff_of_not_mem {α : Type} [DecidableEq α] (A S : Finset α)
    {k : α} (hk : k ∉ S) :
    (insert k A \ S).card = (A \ insert k S).card + 1 := by
  have h1 : insert k A \ S = insert k (A \ insert k S) := by
    ext x
    simp only [Finset.mem_sdiff, Finset.mem_insert]
    constructor
    · rintro ⟨hx | hx, hns⟩
      · exact Or.inl hx
      · by_cases hxe : x = k
        · exact Or.inl hxe
        · exact Or.inr ⟨hx, fun h => h.elim hxe hns⟩
    · rintro (rfl | ⟨hx, hns⟩)
      · exact ⟨Or.inl rfl, hk⟩
      · exact ⟨Or.inr hx, fun h => hns (Or.inr h)⟩
  rw [h1, Finset.card_insert_of_not_mem]
  simp only [Finset.mem_sdiff, Finset.mem_insert, not_and]
  intro _
  simp

theorem retainedLoop_length (evts : List Event) :
    ∀ seen : List (String × String × Option String × Int),
      (retainedLoop evts seen).length =
        ((((evts.filter attackClassified).map dedupKeyOf).toFinset) \ seen.toFinset).card := by
  induction evts with
  | nil => intro seen; simp [retainedLoop]
  | cons e rest ih =>
    intro seen
    by_cases hc : attackClassified e = true
    · by_cases hk : dedupKeyOf e ∈ seen
      · rw [retainedLoop, if_pos hc, if_pos hk, ih seen,
          List.filter_cons_of_pos hc, List.map_cons, List.toFinset_cons,
          Finset.insert_sdiff_of_mem _ (List.mem_toFinset.2 hk)]
      · rw [retainedLoop, if_pos hc, if_neg hk, List.length_cons,
          ih (dedupKeyOf e :: seen), List.filter_cons_of_pos hc, List.map_cons,
          List.toFinset_cons, List.toFinset_cons,
          card_insert_sdiff_of_not_mem _ _ (fun h => hk (List.mem_toFinset.1 h))]
    · rw [retainedLoop, if_neg hc, ih seen, List.filter_cons_of_neg hc]

theorem retainedLoop_first (evts : List Event) :
    ∀ (seen : List (String × String × Option String × Int)) k ev,
      k ∉ seen →
      (evts.filter attackClassified).find? (fun e => decide (dedupKeyOf e = k)) = some ev →
      ev ∈ retainedLoop evts seen := by
  induction evts with
  | nil => intro seen k ev _ h; simp at h
  | cons e rest ih =>
    intro seen k ev hks hfind
    by_cases hc : attackClassified e = true
    · rw [List.filter_cons_of_pos hc] at hfind
      by_cases hke : dedupKeyOf e = k
      · rw [List.find?_cons_of_pos _ (by simpa using hke)] at hfind
        injection hfind with hfind
        subst hfind
        rw [retainedLoop, if_pos hc, if_neg (hke ▸ hks)]
        exact List.mem_cons_self _ _
      · rw [List.find?_cons_of_neg _ (by simpa using hke)] at hfind
        rw [retainedLoop, if_pos hc]
        by_cases hk : dedupKeyOf e ∈ seen
        · rw [if_pos hk]
          exact ih seen k ev hks hfind
        · rw [if_neg hk]
          refine List.mem_cons_of_mem _ ?_
          refine ih _ k ev ?_ hfind
          intro h
          rcases List.mem_cons.1 h with h | h
          · exact hke h.symm
          · exact hks h
    · rw [List.filter_cons_of_neg hc] at hfind
      rw [retainedLoop, if_neg hc]
      exact ih seen k ev hks hfind

/-! ### Per-event facts -/

theorem attackData_result_win_iff (ev : Event) :
    ((attackDataOf ev).result_type = "win" ↔
      (evKey ev = SQUAD_WIN_KEY ∨ evSquadStatus ev = some 3)) ∧
    ((attackDataOf ev).result_type = "win" ∨ (attackDataOf ev).result_type = "hold") := by
  by_cases h1 : evKey ev = SQUAD_WIN_KEY
  · constructor
    · simp [attackDataOf, isWinEv, h1]
    · left; simp [attackDataOf, isWinEv, h1]
  · by_cases h2 : evSquadStatus ev = some 3
    · constructor
      · simp [attackDataOf, isWinEv, h1, h2]
      · left; simp [attackDataOf, isWinEv, h1, h2]
    · constructor
      · simp [attackDataOf, isWinEv, h1, h2]
      · right; simp [attackDataOf, isWinEv, h1, h2]

theorem bannersOf_eq_spec (ev : Event) :
    bannersOf ev = ((firstBannerParam ev).bind pyInt).getD 0 := by
  unfold bannersOf firstBannerParam
  cases hp : ((evActivityLog ev).map ActivityLogMessage.param).getD [] with
  | nil => rfl
  | cons p ps =>
    dsimp only
    cases hv : p.paramValue with
    | nil => rfl
    | cons v vs => rfl

theorem bannersOf_neg (ev : Event) (h : bannersOf ev < 0) :
    ∃ s, firstBannerParam ev = some s ∧ pyInt s = some (bannersOf ev) := by
  cases hfp : firstBannerParam ev with
  | none => rw [bannersOf_eq_spec, hfp] at h; simp at h
  | some s =>
    cases hpi : pyInt s with
    | none =>
      rw [bannersOf_eq_spec, hfp] at h
      simp [hpi] at h
    | some n =>
      refine ⟨s, rfl, ?_⟩
      rw [bannersOf_eq_spec, hfp]
      simp [hpi]

/-! ### Claim theorems -/

/-- **C1** (confirmed): every retained attack record produced by the
parse comes from some attack-classified event of the list, and its
result is `"win"` iff that event's activity-log key equals
`TERRITORY_CHANNEL_ACTIVITY_CONFLICT_SQUAD_WIN` or its
`warSquad.squadStatus` equals 3; every other retained record is
`"hold"`. -/
theorem c1_result_win_iff (gid gn : String) (gd : Option GuildData)
    (evts : List Event) (r : AttackData)
    (h : r ∈ (parseTwAttacks ⟨gid, gn, some ⟨some evts, none⟩, gd⟩).1 ∨
         r ∈ (parseTwAttacks ⟨gid, gn, some ⟨some evts, none⟩, gd⟩).2) :
    ∃ ev ∈ evts, attackClassified ev = true ∧ r = attackDataOf ev ∧
      (r.result_type = "win" ↔ (evKey ev = SQUAD_WIN_KEY ∨ evSquadStatus ev = some 3)) ∧
      (r.result_type = "win" ∨ r.result_type = "hold") := by
  have hp : parseTwAttacks ⟨gid, gn, some ⟨some evts, none⟩, gd⟩ =
      parseLoop gid evts [] := rfl
  rw [hp, parseLoop_eq] at h
  have hr : r ∈ (retainedLoop evts []).map attackDataOf := by
    rcases h with h | h
    · exact List.mem_of_mem_filter h
    · exact List.mem_of_mem_filter h
  rcases List.mem_map.1 hr with ⟨ev, hev, hre⟩
  rcases retainedLoop_subset evts [] ev hev with ⟨h1, h2⟩
  subst hre
  exact ⟨ev, h1, h2, rfl, (attackData_result_win_iff ev).1,
    (attackData_result_win_iff ev).2⟩

theorem c1_result_win_iff_witness :
    ∃ ev ∈ [c1ev], attackClassified ev = true ∧ attackDataOf c1ev = attackDataOf ev ∧
      ((attackDataOf c1ev).result_type = "win" ↔
        (evKey ev = SQUAD_WIN_KEY ∨ evSquadStatus ev = some 3)) ∧
      ((attackDataOf c1ev).result_type = "win" ∨
        (attackDataOf c1ev).result_type = "hold") :=
  c1_result_win_iff "G" "GN" none [c1ev] (attackDataOf c1ev) (Or.inl (by decide))

/-- **C2** (confirmed): at most one attack record survives per dedup
key — the keys of the retained events are nodup, the two partitions are
exactly the retained records split (unmerged) by attacking guild, the
first attack-classified occurrence of every key is the one retained,
and `|ours| + |opponents|` equals the number of distinct dedup keys
among attack-classified events. -/
theorem c2_dedup_partition (gid gn : String) (gd : Option GuildData)
    (evts : List Event) :
    (parseTwAttacks ⟨gid, gn, some ⟨some evts, none⟩, gd⟩).1.length +
        (parseTwAttacks ⟨gid, gn, some ⟨some evts, none⟩, gd⟩).2.length =
      ((evts.filter attackClassified).map dedupKeyOf).dedup.length ∧
    ((retainedLoop evts []).map dedupKeyOf).Nodup ∧
    (parseTwAttacks ⟨gid, gn, some ⟨some evts, none⟩, gd⟩).1 =
      ((retainedLoop evts []).map attackDataOf).filter
        (fun r => decide (r.attacking_guild_id = gid)) ∧
    (parseTwAttacks ⟨gid, gn, some ⟨some evts, none⟩, gd⟩).2 =
      ((retainedLoop evts []).map attackDataOf).filter
        (fun r => !decide (r.attacking_guild_id = gid)) ∧
    ∀ k ev,
      (evts.filter attackClassified).find? (fun e => decide (dedupKeyOf e = k)) = some ev →
      ev ∈ retainedLoop evts [] := by
  have hp : parseTwAttacks ⟨gid, gn, some ⟨some evts, none⟩, gd⟩ =
      parseLoop gid evts [] := rfl
  have heq := parseLoop_eq gid evts []
  refine ⟨?_, (retainedLoop_keys evts []).1, ?_, ?_, ?_⟩
  · rw [hp, heq]
    simp only
    rw [← List.length_eq_length_filter_add, List.length_map,
      retainedLoop_length evts []]
    simp [List.card_toFinset]
  · rw [hp, heq]
  · rw [hp, heq]
  · intro k ev h
    exact retainedLoop_first evts [] k ev (by simp) h

theorem c2_dedup_partition_witness : c2ev ∈ retainedLoop [c2ev] [] :=
  (c2_dedup_partition "G" "GN" none [c2ev]).2.2.2.2 (dedupKeyOf c2ev) c2ev (by decide)

/-- **C3** (confirmed): the single-`SQUAD_WIN` scenario produces exactly
one attack record, in the "ours" partition, with
`attacker_name = "Alice"` (from `info.authorName`),
`defender_name = "Bob"` (from `warSquad.playerName`), `banners = 42`
and result win. -/
theorem c3_single_win_scenario :
    (parseTwAttacks c3ctx).1 = [c3rec] ∧ (parseTwAttacks c3ctx).2 = [] ∧
    c3rec.attacker_name = "Alice" ∧ c3rec.defender_name = "Bob" ∧
    c3rec.banners = 42 ∧ c3rec.result_type = "win" := by
  refine ⟨by decide, by decide, rfl, rfl, rfl, rfl⟩

/-- **C9** (confirmed): a loaded TW document with an empty event list
yields the zeroed guild-stats shape and the zeroed participation-report
shape, with no failure. -/
theorem c9_empty_event_list :
    getTwSummary c9ctx = some (.emptyOurs
      { guild_name := "GN", total_attacks := 0, total_banners := 0
        unique_players := 0, avg_banners := 0, avg_power := 0 }) ∧
    getParticipationReport c9ctx 50 1 [] true = some (.emptyOurs
      { total_players := 0, players_who_attacked := 0, players_who_defended := 0
        underperformers := [], non_participants := [] }) :=
  ⟨rfl, rfl⟩

/-- **C10** (confirmed): with no TW document loaded at all,
`get_tw_summary` and `get_participation_report` both return the
completely empty mapping (modelled by the `noData` constructor), not the
zeroed shapes. -/
theorem c10_no_data_loaded (gid gn : String) (gd : Option GuildData)
    (mb ma : Int) (er : List String) (ur : Bool) :
    getTwSummary ⟨gid, gn, none, gd⟩ = some .noData ∧
    getParticipationReport ⟨gid, gn, none, gd⟩ mb ma er ur = some .noData :=
  ⟨rfl, rfl⟩

/-- **C4** (counterexample): the claim "every produced attack record
satisfies banners >= 0" is false: a banner param `["-5"]` parses (Python
`int` accepts a sign) and produces a retained record with
`banners = -5 < 0`. -/
theorem c4_counterexample :
    ¬ ∀ r ∈ (parseTwAttacks c4ctx).1, 0 ≤ r.banners := by decide

/-- **C4** (amended): banner extraction reads
`activityLogMessage.param[0].paramValue[0]` and casts it with Python
`int`; any failure of this extraction yields 0 and never raises, and a
produced record's banners can only be negative when the banner param is
itself a negative integer numeral. -/
theorem c4_amended_banners (gid gn : String) (gd : Option GuildData)
    (evts : List Event) (r : AttackData)
    (h : r ∈ (parseTwAttacks ⟨gid, gn, some ⟨some evts, none⟩, gd⟩).1 ∨
         r ∈ (parseTwAttacks ⟨gid, gn, some ⟨some evts, none⟩, gd⟩).2) :
    ∃ ev ∈ evts, r.banners = bannersOf ev ∧
      bannersOf ev = ((firstBannerParam ev).bind pyInt).getD 0 ∧
      (bannersOf ev < 0 →
        ∃ s, firstBannerParam ev = some s ∧ pyInt s = some (bannersOf ev)) := by
  have hp : parseTwAttacks ⟨gid, gn, some ⟨some evts, none⟩, gd⟩ =
      parseLoop gid evts [] := rfl
  rw [hp, parseLoop_eq] at h
  have hr : r ∈ (retainedLoop evts []).map attackDataOf := by
    rcases h with h | h
    · exact List.mem_of_mem_filter h
    · exact List.mem_of_mem_filter h
  rcases List.mem_map.1 hr with ⟨ev, hev, hre⟩
  rcases retainedLoop_subset evts [] ev hev with ⟨h1, _⟩
  subst hre
  exact ⟨ev, h1, rfl, bannersOf_eq_spec ev, bannersOf_neg ev⟩

theorem c4_amended_banners_witness :
    ∃ ev ∈ [c4ev], (attackDataOf c4ev).banners = bannersOf ev ∧
      bannersOf ev = ((firstBannerParam ev).bind pyInt).getD 0 ∧
      (bannersOf ev < 0 →
        ∃ s, firstBannerParam ev = some s ∧ pyInt s = some (bannersOf ev)) :=
  c4_amended_banners "G" "GN" none [c4ev] (attackDataOf c4ev) (Or.inl (by decide))

/-- **C5** (counterexample): the claim "no event with
`warSquad.squadStatus == 2` ever produces a retained attack record" is
false: a lone `EMPTY` event with a `warSquad` carrying `squadStatus = 2`
and an unseen dedup key is retained (as a Hold). -/
theorem c5_counterexample :
    evSquadStatus c5ev = some 2 ∧ (parseTwAttacks c5ctx).1.length = 1 := by decide

/-- **C5** (amended): `squadStatus = 2` events are NOT filtered out
before deduplication.  An `EMPTY` event with `squadStatus = 2` is
attack-classified, yields a Hold record, and a lone such event produces
exactly one retained record; such events disappear only when their
dedup key was already seen (e.g. a preceding companion `SQUAD_WIN`). -/
theorem c5_amended_status2 (ev : Event) (gid : String)
    (hkey : evKey ev = EMPTY_KEY) (hst : evSquadStatus ev = some 2) :
    attackClassified ev = true ∧ (attackDataOf ev).result_type = "hold" ∧
    (parseLoop gid [ev] []).1.length + (parseLoop gid [ev] []).2.length = 1 := by
  have hws : (evWarSquad ev).isSome = true := by
    unfold evSquadStatus at hst
    cases hev : evWarSquad ev
    · rw [hev] at hst; simp at hst
    · simp
  have hcls : attackClassified ev = true := by
    simp [attackClassified, isWinEv, isHoldEv, hkey, hws, EMPTY_KEY, SQUAD_WIN_KEY]
  have hkey_ne : ¬ evKey ev = SQUAD_WIN_KEY := by
    rw [hkey]; decide
  have hhold : (attackDataOf ev).result_type = "hold" := by
    rcases (attackData_result_win_iff ev).2 with h | h
    · exfalso
      rcases (attackData_result_win_iff ev).1.mp h with h' | h'
      · exact hkey_ne h'
      · rw [hst] at h'; simp at h'
    · exact h
  refine ⟨hcls, hhold, ?_⟩
  rw [parseLoop_eq]
  have hret : retainedLoop [ev] [] = [ev] := by
    rw [retainedLoop, if_pos hcls, if_neg (by simp)]
    rfl
  rw [hret]
  simpa using
    (List.length_eq_length_filter_add
      (l := [ev].map attackDataOf)
      (fun r => decide (r.attacking_guild_id = gid))).symm

theorem c5_amended_status2_witness :
    attackClassified c5ev = true ∧ (attackDataOf c5ev).result_type = "hold" ∧
    (parseLoop "G" [c5ev] []).1.length + (parseLoop "G" [c5ev] []).2.length = 1 :=
  c5_amended_status2 c5ev "G" (by decide) (by decide)

/-- **C6** (counterexample): the claim says both extraction paths keep
the full `unitDefId` when no separator is present; but the deploy-path
extraction of `_get_defense_contributors` has no `else` branch and
yields null on `"LEADER"`, where the attack path yields
`some "LEADER"`. -/
theorem c6_counterexample :
    (cellsOfWs (some c6ws)).find? (fun c => decide (c.cellIndex = some 0)) =
        some c6cell ∧
    leaderOfWs (some c6ws) = some "LEADER" ∧
    deployLeaderOfWs (some c6ws) = none := by decide

/-- **C6** (amended): for every war squad, the attack-path leader is the
prefix of the `cellIndex`-0 cell's `unitDefId` before the first `':'`
when one is present, the full `unitDefId` otherwise, and null when no
such cell exists; the deploy path agrees except that it yields null
(not the full id) when no separator is present. -/
theorem c6_amended_leader_extraction (ws : Option WarSquad) :
    ((cellsOfWs ws).find? (fun c => decide (c.cellIndex = some 0)) = none →
      leaderOfWs ws = none ∧ deployLeaderOfWs ws = none) ∧
    (∀ c, (cellsOfWs ws).find? (fun c => decide (c.cellIndex = some 0)) = some c →
      leaderOfWs ws =
        some (if (c.unitDefId.getD "").data.contains ':' then
                beforeColon (c.unitDefId.getD "")
              else c.unitDefId.getD "") ∧
      deployLeaderOfWs ws =
        (if (c.unitDefId.getD "").data.contains ':' then
           some (beforeColon (c.unitDefId.getD ""))
         else none)) := by
  constructor
  · intro h
    unfold leaderOfWs deployLeaderOfWs
    rw [h]
    exact ⟨rfl, rfl⟩
  · intro c h
    unfold leaderOfWs deployLeaderOfWs
    rw [h]
    refine ⟨?_, rfl⟩
    exact (apply_ite some ((c.unitDefId.getD "").data.contains ':' = true)
      (beforeColon (c.unitDefId.getD "")) (c.unitDefId.getD "")).symm

theorem c6_amended_leader_extraction_witness :
    leaderOfWs (some c6ws) =
      some (if (c6cell.unitDefId.getD "").data.contains ':' then
              beforeColon (c6cell.unitDefId.getD "")
            else c6cell.unitDefId.getD "") ∧
    deployLeaderOfWs (some c6ws) =
      (if (c6cell.unitDefId.getD "").data.contains ':' then
         some (beforeColon (c6cell.unitDefId.getD ""))
       else none) :=
  (c6_amended_leader_extraction (some c6ws)).2 c6cell (by decide)

/-- **C7** (counterexample): the claim says ties in `total_banners` are
broken by the original group iteration order (a stable sort); but the
pandas single-column descending sort reverses an ascending argsort, so
two groups with equal banners come out in REVERSED group order:
iteration order is `["A", "B"]`, output order is `["B", "A"]`. -/
theorem c7_counterexample :
    ((topPerformers [c7r1, c7r2] 10).map PlayerRow.name) = ["B", "A"] ∧
    ((groupPairs [c7r1, c7r2]).map Prod.snd) = ["A", "B"] := by decide

/-- **C7** (amended): TopPerformers output is sorted non-increasing by
`total_banners` and its length is at most the requested limit; ties in
`total_banners` appear in the REVERSE of the original group iteration
order (pandas `sort_values(..., ascending=False)` reverses a stable
ascending argsort). -/
theorem c7_amended_top_performers (df : List AttackData) (limit : Nat) :
    (topPerformers df limit).length ≤ limit ∧
    (topPerformers df limit).Pairwise
      (fun a b => b.total_banners ≤ a.total_banners) ∧
    ∀ b : Int,
      (topPerformersSorted df).filter (fun r => decide (r.total_banners = b)) =
        (((groupPairs df).map (aggPlayerRow df)).filter
          (fun r => decide (r.total_banners = b))).reverse := by
  refine ⟨?_, ?_, ?_⟩
  · unfold topPerformers
    by_cases h : df.isEmpty
    · simp [h]
    · simp [h, List.length_take]
  · unfold topPerformers
    by_cases h : df.isEmpty
    · simp [h]
    · simp only [h, Bool.false_eq_true, if_false]
      refine List.Pairwise.sublist (List.take_sublist _ _) ?_
      unfold topPerformersSorted
      exact List.pairwise_reverse.mpr
        (List.sorted_insertionSort playerBannersLe _)
  · intro b
    unfold topPerformersSorted
    rw [List.filter_reverse]
    congr 1
    exact filter_insertionSort_rel playerBannersLe _
      (fun a c ha hc => by
        have ha' := of_decide_eq_true ha
        have hc' := of_decide_eq_true hc
        show a.total_banners ≤ c.total_banners
        rw [ha', hc']) _

/-! ### Name-set lemmas for the participation report (C8) -/

theorem mkDefRow_player_name (opp : List AttackData) (ddf : List DeployRow)
    (n : String) : (mkDefRow opp ddf n).player_name = n := by
  unfold mkDefRow
  dsimp only
  split <;> rfl

theorem mem_groupPairs (df : List AttackData) (k : String × String) :
    k ∈ groupPairs df ↔ ∃ r ∈ df, r.attacker_id = k.1 ∧ r.attacker_name = k.2 := by
  unfold groupPairs
  rw [List.mem_insertionSort, List.mem_dedup, List.mem_map]
  constructor
  · rintro ⟨r, hr, rfl⟩
    exact ⟨r, hr, rfl, rfl⟩
  · rintro ⟨r, hr, h1, h2⟩
    refine ⟨r, hr, ?_⟩
    cases k
    simp_all

theorem offensiveStats_names (ours : List AttackData) (x : String) :
    x ∈ (offensiveStats ours).map OffRow.player_name ↔
      ∃ r ∈ ours, r.attacker_name = x := by
  unfold offensiveStats
  rw [List.map_map, List.mem_map]
  constructor
  · rintro ⟨k, hk, hkx⟩
    rcases (mem_groupPairs ours k).1 hk with ⟨r, hr, _, h2⟩
    exact ⟨r, hr, by rw [h2]; exact hkx⟩
  · rintro ⟨r, hr, hrx⟩
    refine ⟨(r.attacker_id, r.attacker_name), ?_, hrx⟩
    exact (mem_groupPairs ours _).2 ⟨r, hr, rfl, rfl⟩

theorem depBump_keys (acc : List (String × Nat × Nat)) (n : String) (fl : Bool)
    (x : String) :
    x ∈ (depBump acc n fl).map (fun e => e.1) ↔
      x ∈ acc.map (fun e => e.1) ∨ x = n := by
  unfold depBump
  by_cases h : (acc.any fun e => decide (e.1 = n)) = true
  · rw [if_pos h]
    have hmap :
        ((acc.map fun e =>
            if e.1 = n then
              (if fl then (e.1, e.2.1, e.2.2 + 1) else (e.1, e.2.1 + 1, e.2.2))
            else e).map fun e => e.1) = acc.map fun e => e.1 := by
      rw [List.map_map]
      apply List.map_congr_left
      intro e _
      show (if e.1 = n then
          (if fl then (e.1, e.2.1, e.2.2 + 1) else (e.1, e.2.1 + 1, e.2.2))
        else e).1 = e.1
      split
      · split <;> rfl
      · rfl
    rw [hmap]
    constructor
    · exact Or.inl
    · rintro (hx | rfl)
      · exact hx
      · rcases List.any_eq_true.1 h with ⟨e, he, hen⟩
        exact List.mem_map.2 ⟨e, he, of_decide_eq_true hen⟩
  · rw [if_neg h]
    have hfst : (if fl then (n, 0, 1) else (n, (1 : Nat), (0 : Nat))).1 = n := by
      split <;> rfl
    rw [List.map_append]
    simp only [List.mem_append, List.map_cons, List.map_nil, List.mem_singleton, hfst]

theorem depStep_keys (gid : String) (acc : List (String × Nat × Nat)) (ev : Event)
    (x : String) :
    x ∈ (depStep gid acc ev).map (fun e => e.1) ↔
      x ∈ acc.map (fun e => e.1) ∨
        (evGuildId ev = gid ∧ (evKey ev = DEPLOY_KEY ∨ evKey ev = FLEET_DEPLOY_KEY) ∧
          evAuthorName ev = x) := by
  unfold depStep
  by_cases hg : (evGuildId ev == gid) = true
  · rw [if_pos hg]
    have hg' := eq_of_beq hg
    by_cases hd : (evKey ev == DEPLOY_KEY) = true
    · rw [if_pos hd, depBump_keys]
      have hd' := eq_of_beq hd
      simp [hg', hd', eq_comm]
    · by_cases hf : (evKey ev == FLEET_DEPLOY_KEY) = true
      · rw [if_neg hd, if_pos hf, depBump_keys]
        have hf' := eq_of_beq hf
        simp [hg', hf', eq_comm]
      · rw [if_neg hd, if_neg hf]
        have hd' : ¬ evKey ev = DEPLOY_KEY := fun h => hd (by rw [h]; simp)
        have hf' : ¬ evKey ev = FLEET_DEPLOY_KEY := fun h => hf (by rw [h]; simp)
        simp [hd', hf']
  · rw [if_neg hg]
    have hg' : ¬ evGuildId ev = gid := fun h => hg (by rw [h]; simp)
    simp [hg']

theorem deploymentBanners_keys (gid : String) (events : List Event) (x : String) :
    x ∈ (deploymentBanners gid events).map (fun e => e.1) ↔
      ∃ ev ∈ events, evGuildId ev = gid ∧
        (evKey ev = DEPLOY_KEY ∨ evKey ev = FLEET_DEPLOY_KEY) ∧
        evAuthorName ev = x := by
  have aux : ∀ (evs : List Event) (acc : List (String × Nat × Nat)),
      x ∈ (evs.foldl (depStep gid) acc).map (fun e => e.1) ↔
        x ∈ acc.map (fun e => e.1) ∨
        ∃ ev ∈ evs, evGuildId ev = gid ∧
          (evKey ev = DEPLOY_KEY ∨ evKey ev = FLEET_DEPLOY_KEY) ∧
          evAuthorName ev = x := by
    intro evs
    induction evs with
    | nil => intro acc; simp
    | cons e rest ih =>
      intro acc
      rw [List.foldl_cons, ih, depStep_keys]
      constructor
      · rintro ((h | h) | ⟨ev, hev, hrest⟩)
        · exact Or.inl h
        · exact Or.inr ⟨e, List.mem_cons_self _ _, h⟩
        · exact Or.inr ⟨ev, List.mem_cons_of_mem _ hev, hrest⟩
      · rintro (h | ⟨ev, hev, hrest⟩)
        · exact Or.inl (Or.inl h)
        · rcases List.mem_cons.1 hev with rfl | hev
          · exact Or.inl (Or.inr hrest)
          · exact Or.inr ⟨ev, hev, hrest⟩
  rw [deploymentBanners, aux]
  simp

theorem explicitDeployments_names (gid : String) (events : List Event) (x : String) :
    x ∈ (explicitDeployments gid events).map DeployRow.player_name ↔
      ∃ ev ∈ events, evGuildId ev = gid ∧
        (evKey ev = DEPLOY_KEY ∨ evKey ev = FLEET_DEPLOY_KEY) ∧
        evAuthorName ev = x := by
  unfold explicitDeployments
  rw [List.map_map, List.mem_map]
  constructor
  · rintro ⟨ev, hev, hx⟩
    rw [List.mem_filter] at hev
    rcases hev with ⟨hin, hcond⟩
    rw [Bool.and_eq_true, beq_iff_eq] at hcond
    rcases hcond with ⟨hdep, hgid⟩
    unfold isDeployEv at hdep
    rw [Bool.or_eq_true, beq_iff_eq, beq_iff_eq] at hdep
    exact ⟨ev, hin, hgid, hdep, hx⟩
  · rintro ⟨ev, hev, hgid, hdep, hx⟩
    refine ⟨ev, List.mem_filter.2 ⟨hev, ?_⟩, hx⟩
    rw [Bool.and_eq_true, beq_iff_eq]
    refine ⟨?_, hgid⟩
    unfold isDeployEv
    rw [Bool.or_eq_true, beq_iff_eq, beq_iff_eq]
    exact hdep

theorem addInferred_names (opp : List AttackData) (p : String × Option String)
    (acc : List DeployRow) (x : String) :
    x ∈ (addInferred opp acc p).map DeployRow.player_name ↔
      x ∈ acc.map DeployRow.player_name ∨ (p.1 = x ∧ p.2.isSome = true) := by
  unfold addInferred
  dsimp only
  split
  next hc =>
    rw [Bool.and_eq_true] at hc
    rw [List.map_append]
    simp only [List.mem_append, List.map_cons, List.map_nil, List.mem_singleton]
    constructor
    · rintro (h | h)
      · exact Or.inl h
      · exact Or.inr ⟨h.symm, hc.2⟩
    · rintro (h | ⟨h1, _⟩)
      · exact Or.inl h
      · exact Or.inr h1.symm
  next hc =>
    constructor
    · exact Or.inl
    · rintro (h | ⟨h1, h2⟩)
      · exact h
      · rw [Bool.and_eq_true] at hc
        have hA : ¬ (acc.filter fun r =>
            decide (r.player_name = p.1 ∧ r.leader = p.2)).isEmpty = true :=
          fun hA => hc ⟨hA, h2⟩
        have hne : (acc.filter fun r =>
            decide (r.player_name = p.1 ∧ r.leader = p.2)) ≠ [] := by
          simpa [List.isEmpty_iff] using hA
        rcases List.exists_mem_of_ne_nil _ hne with ⟨r, hr⟩
        rw [List.mem_filter] at hr
        have hre := of_decide_eq_true hr.2
        exact List.mem_map.2 ⟨r, hr.1, by rw [hre.1, h1]⟩

theorem foldl_addInferred_names (opp : List AttackData)
    (pairs : List (String × Option String)) :
    ∀ (acc : List DeployRow) (x : String),
      x ∈ (pairs.foldl (addInferred opp) acc).map DeployRow.player_name ↔
        x ∈ acc.map DeployRow.player_name ∨
          ∃ p ∈ pairs, p.1 = x ∧ p.2.isSome = true := by
  induction pairs with
  | nil => intro acc x; simp
  | cons q rest ih =>
    intro acc x
    rw [List.foldl_cons, ih, addInferred_names]
    constructor
    · rintro ((h | h) | ⟨p, hp, hx⟩)
      · exact Or.inl h
      · exact Or.inr ⟨q, List.mem_cons_self _ _, h⟩
      · exact Or.inr ⟨p, List.mem_cons_of_mem _ hp, hx⟩
    · rintro (h | ⟨p, hp, hx⟩)
      · exact Or.inl (Or.inl h)
      · rcases List.mem_cons.1 hp with rfl | hp
        · exact Or.inl (Or.inr hx)
        · exact Or.inr ⟨p, hp, hx⟩

theorem deploymentsDf_names (gid : String) (events : List Event)
    (opp : List AttackData) (x : String) :
    x ∈ (deploymentsDf gid events opp).map DeployRow.player_name ↔
      x ∈ (explicitDeployments gid events).map DeployRow.player_name ∨
        ∃ r ∈ opp, r.defender_name = x ∧ r.defending_leader.isSome = true := by
  unfold deploymentsDf
  dsimp only
  by_cases hdeps : (explicitDeployments gid events).isEmpty = true
  · rw [if_neg (by simp [hdeps])]
    have hdepsnil : explicitDeployments gid events = [] := List.isEmpty_iff.1 hdeps
    by_cases hopp : opp.isEmpty = true
    · rw [if_neg (by simp [hopp])]
      have hoppnil : opp = [] := List.isEmpty_iff.1 hopp
      simp [hdepsnil, hoppnil]
    · rw [if_pos (by simp [hopp])]
      rw [List.map_map, List.mem_map, hdepsnil]
      simp only [List.map_nil, List.not_mem_nil, false_or]
      constructor
      · rintro ⟨k, hk, hkx⟩
        rw [List.mem_insertionSort, List.mem_dedup, List.mem_filterMap] at hk
        rcases hk with ⟨r, hr, hfr⟩
        rcases Option.map_eq_some'.1 hfr with ⟨l, hl, hkl⟩
        have hk1 : k.1 = x := hkx
        rw [← hkl] at hk1
        exact ⟨r, hr, hk1, by rw [hl]; rfl⟩
      · rintro ⟨r, hr, hdx, hsome⟩
        rcases Option.isSome_iff_exists.1 hsome with ⟨l, hl⟩
        refine ⟨(r.defender_name, l), ?_, hdx⟩
        rw [List.mem_insertionSort, List.mem_dedup, List.mem_filterMap]
        exact ⟨r, hr, by rw [hl]; rfl⟩
  · rw [if_pos (by simp [hdeps]), foldl_addInferred_names]
    constructor
    · rintro (h | ⟨p, hp, h1, h2⟩)
      · exact Or.inl h
      · rw [mem_distinctFirst, List.mem_map] at hp
        rcases hp with ⟨r, hr, rfl⟩
        exact Or.inr ⟨r, hr, h1, h2⟩
    · rintro (h | ⟨r, hr, hdx, hsome⟩)
      · exact Or.inl h
      · refine Or.inr ⟨(r.defender_name, r.defending_leader), ?_, hdx, hsome⟩
        rw [mem_distinctFirst, List.mem_map]
        exact ⟨r, hr, rfl⟩

theorem defenseContributors_names (gid gn : String) (gdata : Option GuildData)
    (td : TWData) (dc : List DefRow)
    (hdc : defenseContributors ⟨gid, gn, some td, gdata⟩ = some dc) (x : String) :
    x ∈ dc.map DefRow.player_name ↔
      x ∈ (explicitDeployments gid td.eventList).map DeployRow.player_name ∨
        ∃ r ∈ (parseTwAttacks ⟨gid, gn, some td, gdata⟩).2,
          r.defender_name = x ∧ r.defending_leader.isSome = true := by
  unfold defenseContributors at hdc
  dsimp only at hdc
  by_cases hboth : ((explicitDeployments gid td.eventList).isEmpty &&
      (parseTwAttacks ⟨gid, gn, some td, gdata⟩).2.isEmpty) = true
  · rw [if_pos hboth] at hdc
    injection hdc with hdc
    subst hdc
    rw [Bool.and_eq_true] at hboth
    simp [List.isEmpty_iff.1 hboth.1, List.isEmpty_iff.1 hboth.2]
  · rw [if_neg hboth] at hdc
    split at hdc
    next hraise => exact absurd hdc (by simp)
    next hraise =>
      split at hdc
      next hstats => exact absurd hdc (by simp)
      next hstats =>
        injection hdc with hdc
        subst hdc
        rw [List.mem_map]
        constructor
        · rintro ⟨row, hrow, hrx⟩
          rw [List.mem_insertionSort] at hrow
          rcases List.mem_map.1 hrow with ⟨nm, hnm, hmk⟩
          rw [← hmk, mkDefRow_player_name] at hrx
          rw [List.mem_insertionSort, List.mem_dedup] at hnm
          subst hrx
          exact (deploymentsDf_names gid td.eventList _ nm).1 hnm
        · intro h
          have hx : x ∈ (deploymentsDf gid td.eventList
              (parseTwAttacks ⟨gid, gn, some td, gdata⟩).2).map DeployRow.player_name :=
            (deploymentsDf_names gid td.eventList _ x).2 h
          refine ⟨mkDefRow (parseTwAttacks ⟨gid, gn, some td, gdata⟩).2
            (deploymentsDf gid td.eventList (parseTwAttacks ⟨gid, gn, some td, gdata⟩).2) x,
            ?_, mkDefRow_player_name _ _ _⟩
          rw [List.mem_insertionSort]
          refine List.mem_map.2 ⟨x, ?_, rfl⟩
          rw [List.mem_insertionSort, List.mem_dedup]
          exact hx

theorem mem_allPlayersOf (offRows : List OffRow) (defRows : List DefRow)
    (depB : List (String × Nat × Nat)) (roster : List String) (x : String) :
    x ∈ allPlayersOf offRows defRows depB roster ↔
      x ∈ offRows.map OffRow.player_name ∨ x ∈ defRows.map DefRow.player_name ∨
      x ∈ depB.map (fun e => e.1) ∨ x ∈ roster := by
  unfold allPlayersOf
  simp [List.mem_dedup, List.mem_append, or_assoc]

theorem mem_reverse_sort_names (rows : List PRow) (x : String) :
    x ∈ ((List.insertionSort prowBannersLe rows).reverse).map PRow.player_name ↔
      x ∈ rows.map PRow.player_name := by
  simp [List.mem_map, List.mem_reverse, List.mem_insertionSort]

theorem rows_names (offRows : List OffRow) (defRows : List DefRow)
    (depB : List (String × Nat × Nat)) (mb ma : Int) (players : List String) :
    (players.map (buildPRow offRows defRows depB mb ma)).map PRow.player_name =
      players := by
  rw [List.map_map]
  have h : PRow.player_name ∘ buildPRow offRows defRows depB mb ma = id :=
    funext fun p => rfl
  rw [h, List.map_id]

theorem buildPRow_of_absent (offRows : List OffRow) (defRows : List DefRow)
    (depB : List (String × Nat × Nat)) (mb ma : Int) (p : String)
    (hma : 1 ≤ ma)
    (h1 : ∀ r ∈ offRows, r.player_name ≠ p)
    (h2 : ∀ r ∈ defRows, r.player_name ≠ p)
    (h3 : ∀ e ∈ depB, e.1 ≠ p) :
    buildPRow offRows defRows depB mb ma p =
      { player_name := p, attacks := 0, offensive_banners := 0
        defensive_banners := 0, total_banners := 0, wins := 0
        squads_deployed := 0, defensive_holds := 0, participated_offense := false
        participated_defense := false, underperforming := false } := by
  have hoff : (offRows.filter fun r => decide (r.player_name = p)) = [] :=
    List.filter_eq_nil_iff.2 (fun r hr => by simpa using h1 r hr)
  have hdef : (defRows.filter fun r => decide (r.player_name = p)) = [] :=
    List.filter_eq_nil_iff.2 (fun r hr => by simpa using h2 r hr)
  have hdep : (depB.find? fun e => decide (e.1 = p)) = none :=
    List.find?_eq_none.2 (fun e he => by simpa using h3 e he)
  unfold buildPRow depLookup
  rw [hoff, hdef, hdep]
  have hma' : ¬ (ma ≤ (0 : Int)) := by omega
  simp [hma']

/-- **C8** (counterexample): a loaded document with an empty event list
and a supplied roster `["Zed"]` — the early return reports NO players at
all (`non_participants = []`), although the claim's union contains the
roster name `"Zed"`. -/
theorem c8_counterexample :
    getParticipationReport c8ctx 50 1 ["Zed"] true =
      some (.emptyOurs
        { total_players := 0, players_who_attacked := 0
          players_who_defended := 0, underperformers := []
          non_participants := [] }) := rfl

/-- **C8** (amended): when the "ours" partition is non-empty and the
full report is produced, the set of players reported is the union of
attackers seen, defenders seen WITH a non-null defending leader,
deployers seen, and roster names; a roster-only player then appears in
`non_participants` with all-zero stats (for `min_attacks ≥ 1`). -/
theorem c8_amended_participation (gid gn : String) (gdata : Option GuildData)
    (td : TWData) (mb ma : Int) (er : List String) (ur : Bool)
    (rep : FullReport) (p : String) (hma : 1 ≤ ma)
    (hrep : getParticipationReport ⟨gid, gn, some td, gdata⟩ mb ma er ur =
      some (.report rep)) :
    (∀ x, x ∈ rep.all_participants.map PRow.player_name ↔
        ((∃ r ∈ (parseTwAttacks ⟨gid, gn, some td, gdata⟩).1, r.attacker_name = x) ∨
         (∃ r ∈ (parseTwAttacks ⟨gid, gn, some td, gdata⟩).2,
            r.defender_name = x ∧ r.defending_leader.isSome = true) ∨
         (∃ ev ∈ td.eventList, evGuildId ev = gid ∧
            (evKey ev = DEPLOY_KEY ∨ evKey ev = FLEET_DEPLOY_KEY) ∧
            evAuthorName ev = x) ∨
         x ∈ rosterAdditions ⟨gid, gn, some td, gdata⟩ er ur)) ∧
    (p ∈ rosterAdditions ⟨gid, gn, some td, gdata⟩ er ur →
      (¬ ∃ r ∈ (parseTwAttacks ⟨gid, gn, some td, gdata⟩).1, r.attacker_name = p) →
      (¬ ∃ r ∈ (parseTwAttacks ⟨gid, gn, some td, gdata⟩).2,
          r.defender_name = p ∧ r.defending_leader.isSome = true) →
      (¬ ∃ ev ∈ td.eventList, evGuildId ev = gid ∧
          (evKey ev = DEPLOY_KEY ∨ evKey ev = FLEET_DEPLOY_KEY) ∧
          evAuthorName ev = p) →
      ∃ row ∈ rep.non_participants,
        row.player_name = p ∧ row.attacks = 0 ∧ row.offensive_banners = 0 ∧
        row.defensive_banners = 0 ∧ row.total_banners = 0 ∧ row.wins = 0 ∧
        row.squads_deployed = 0 ∧ row.defensive_holds = 0) := by
  unfold getParticipationReport at hrep
  dsimp only at hrep
  by_cases hours : (parseTwAttacks ⟨gid, gn, some td, gdata⟩).1.isEmpty = true
  · rw [if_pos hours] at hrep
    exact absurd hrep (by simp)
  · rw [if_neg hours] at hrep
    cases hdc : defenseContributors ⟨gid, gn, some td, gdata⟩ with
    | none => rw [hdc] at hrep; exact absurd hrep (by simp)
    | some defRows =>
      rw [hdc] at hrep
      dsimp only at hrep
      injection hrep with hrep
      injection hrep with hrep
      subst hrep
      dsimp only
      constructor
      · intro x
        rw [mem_reverse_sort_names, rows_names, mem_allPlayersOf,
          offensiveStats_names, deploymentBanners_keys,
          defenseContributors_names gid gn gdata td defRows hdc x,
          explicitDeployments_names]
        constructor
        · rintro (h | (h | h) | h | h)
          · exact Or.inl h
          · exact Or.inr (Or.inr (Or.inl h))
          · exact Or.inr (Or.inl h)
          · exact Or.inr (Or.inr (Or.inl h))
          · exact Or.inr (Or.inr (Or.inr h))
        · rintro (h | h | h | h)
          · exact Or.inl h
          · exact Or.inr (Or.inl (Or.inr h))
          · exact Or.inr (Or.inr (Or.inl h))
          · exact Or.inr (Or.inr (Or.inr h))
      · intro hp hnoff hnopp hnodep
        have hnames1 : ∀ r ∈ offensiveStats (parseTwAttacks ⟨gid, gn, some td, gdata⟩).1,
            r.player_name ≠ p := by
          intro r hr hrp
          exact hnoff ((offensiveStats_names _ p).1 (List.mem_map.2 ⟨r, hr, hrp⟩))
        have hnames2 : ∀ r ∈ defRows, r.player_name ≠ p := by
          intro r hr hrp
          rcases (defenseContributors_names gid gn gdata td defRows hdc p).1
              (List.mem_map.2 ⟨r, hr, hrp⟩) with h | h
          · exact hnodep ((explicitDeployments_names gid td.eventList p).1 h)
          · exact hnopp h
        have hnames3 : ∀ e ∈ deploymentBanners gid td.eventList, e.1 ≠ p := by
          intro e he hep
          exact hnodep ((deploymentBanners_keys gid td.eventList p).1
            (List.mem_map.2 ⟨e, he, hep⟩))
        have hzero := buildPRow_of_absent
          (offensiveStats (parseTwAttacks ⟨gid, gn, some td, gdata⟩).1) defRows
          (deploymentBanners gid td.eventList) mb ma p hma hnames1 hnames2 hnames3
        have hpmem : p ∈ allPlayersOf
            (offensiveStats (parseTwAttacks ⟨gid, gn, some td, gdata⟩).1) defRows
            (deploymentBanners gid td.eventList)
            (rosterAdditions ⟨gid, gn, some td, gdata⟩ er ur) :=
          (mem_allPlayersOf _ _ _ _ p).2 (Or.inr (Or.inr (Or.inr hp)))
        refine ⟨buildPRow
          (offensiveStats (parseTwAttacks ⟨gid, gn, some td, gdata⟩).1) defRows
          (deploymentBanners gid td.eventList) mb ma p, ?_, ?_⟩
        · rw [List.mem_filter]
          constructor
          · rw [List.mem_reverse, List.mem_insertionSort]
            exact List.mem_map.2 ⟨p, hpmem, rfl⟩
          · rw [hzero]
            rfl
        · rw [hzero]
          exact ⟨rfl, rfl, rfl, rfl, rfl, rfl, rfl, rfl⟩

theorem c8_amended_participation_witness :
    ∃ row ∈ c8rep.non_participants,
      row.player_name = "Zed" ∧ row.attacks = 0 ∧ row.offensive_banners = 0 ∧
      row.defensive_banners = 0 ∧ row.total_banners = 0 ∧ row.wins = 0 ∧
      row.squads_deployed = 0 ∧ row.defensive_holds = 0 :=
  (c8_amended_participation "G" "GN" none c8wtd 50 1 ["Zed"] true c8rep "Zed"
    (by decide) (by decide)).2 (by decide) (by decide) (by decide) (by decide)

end SWGOH
